import Mathlib

/-!
# Deployment resource of the Astronomer Terraform provider

A shallow embedding of `internal/provider/deployment_resource.go`: the declared
resource model, the worker-queue mapping `loadWorkerQueuesFromTFState`, and the four
lifecycle handlers `Create`, `Read`, `Update`, `Delete`.

Conventions of the embedding.

* A framework value (`types.String`, `types.Bool`, `types.Int64`) is null, unknown or
  known; `ValueString`/`ValueBool`/`ValueInt64` give the zero value for the first two.
* A Go slice is `Option (List α)`: `none` is the nil slice, `some []` the empty non-nil
  slice. `range` over either runs no iteration, `append` always gives a non-nil slice.
* The remote API package is outside the repository. A call's result is the Go pair
  `(response, err)`; a handler receives the results its calls will get (for `Create` the
  result of `CreateDeployment` and the script of successive `GetDeployment` results)
  and its outcome records every call it issued, with the arguments.
* `log.Println`, `tflog.Trace` and `time.Sleep` have no effect on values and are left out.
-/

namespace Astronomer

/-! ## Framework values -/

/-- The framework's `types.String`. -/
inductive TfString where
  | null
  | unknown
  | value (s : String)
deriving DecidableEq, Repr

/-- The framework's `types.Bool`. -/
inductive TfBool where
  | null
  | unknown
  | value (b : Bool)
deriving DecidableEq, Repr

/-- A Go `int64`: an integer in the signed 64-bit range. -/
structure Int64 where
  val : Int
  lo : -(2 : Int) ^ 63 ≤ val
  hi : val < (2 : Int) ^ 63
deriving DecidableEq

/-- The framework's `types.Int64`. -/
inductive TfInt64 where
  | null
  | unknown
  | value (n : Int64)
deriving DecidableEq

/-- The method `ValueString`: the known value, the empty string for null and unknown. -/
def TfString.ValueString : TfString → String
  | .value s => s
  | _ => ""

/-- The method `ValueBool`: the known value, `false` for null and unknown. -/
def TfBool.ValueBool : TfBool → Bool
  | .value b => b
  | _ => false

/-- The method `ValueInt64`: the known value, `0` for null and unknown. -/
def TfInt64.ValueInt64 : TfInt64 → Int64
  | .value n => n
  | _ => ⟨0, by norm_num, by norm_num⟩

/-- The constructor `types.StringValue`: a known string. -/
def StringValue (s : String) : TfString := .value s

/-- Width in bits of Go's `int` (64 on the amd64 and arm64 targets). -/
def intBits : Nat := 64

/-- The conversion `int(x)` of an `int64`: the value wrapped into the signed range of
`intBits` bits. -/
def goInt (x : Int64) : Int :=
  (x.val + 2 ^ (intBits - 1)) % 2 ^ intBits - 2 ^ (intBits - 1)

/-- Upper case of one rune, on the ASCII range (`unicode.ToUpper` there); a rune outside
ASCII is left as it is. -/
def toUpperRune (c : Char) : Char :=
  if 97 ≤ c.toNat ∧ c.toNat ≤ 122 then Char.ofNat (c.toNat - 32) else c

/-- The function `strings.ToUpper`: every rune mapped to upper case. -/
def ToUpper (s : String) : String := ⟨s.data.map toUpperRune⟩

/-! ## Go slices -/

/-- A Go slice: `none` is nil. -/
abbrev Slice (α : Type) := Option (List α)

/-- The elements a `range` loop visits. -/
def Slice.elems {α : Type} : Slice α → List α
  | none => []
  | some xs => xs

/-- The builtin `len`. -/
def Slice.len {α : Type} (s : Slice α) : Nat := s.elems.length

/-- The builtin `append(s, x)`: never nil. -/
def Slice.append {α : Type} (s : Slice α) (x : α) : Slice α := some (s.elems ++ [x])

/-! ## Data model -/

/-- One declared worker queue (`WorkerQueueModel`). -/
structure WorkerQueueModel where
  AstroMachine : TfString
  Id : TfString
  IsDefault : TfBool
  MaxWorkerCount : TfInt64
  MinWorkerCount : TfInt64
  Name : TfString
  WorkerConcurrency : TfInt64
deriving DecidableEq

/-- The declared resource (`DeploymentResourceModel`). -/
structure DeploymentResourceModel where
  AstroRuntimeVersion : TfString
  CloudProvider : TfString
  DefaultTaskPodCpu : TfString
  DefaultTaskPodMemory : TfString
  Description : TfString
  Executor : TfString
  Id : TfString
  IsCicdEnforced : TfBool
  IsDagDeployEnforced : TfBool
  IsHighAvailability : TfBool
  Name : TfString
  OrganizationId : TfString
  Region : TfString
  ResourceQuotaCpu : TfString
  ResourceQuotaMemory : TfString
  SchedulerSize : TfString
  Type' : TfString
  WorkerQueues : Slice WorkerQueueModel
  WorkspaceId : TfString
deriving DecidableEq

/-- The remote package's `WorkerQueue`, with the fields the provider sets. -/
structure WorkerQueue where
  AstroMachine : String
  IsDefault : Bool
  MaxWorkerCount : Int
  MinWorkerCount : Int
  Name : String
  WorkerConcurrency : Int
deriving DecidableEq, Repr

/-- The function `loadWorkerQueuesFromTFState`: starting from the nil slice, one
`append` per declared queue. -/
def loadWorkerQueuesFromTFState (data : DeploymentResourceModel) : Slice WorkerQueue :=
  data.WorkerQueues.elems.foldl
    (fun workerQueues value =>
      Slice.append workerQueues
        { AstroMachine := value.AstroMachine.ValueString
          IsDefault := value.IsDefault.ValueBool
          MaxWorkerCount := goInt value.MaxWorkerCount.ValueInt64
          MinWorkerCount := goInt value.MinWorkerCount.ValueInt64
          Name := value.Name.ValueString
          WorkerConcurrency := goInt value.WorkerConcurrency.ValueInt64 })
    none

/-- The remote package's `DeploymentCreateRequest`, with the fields `Create` sets. -/
structure DeploymentCreateRequest where
  AstroRuntimeVersion : String
  CloudProvider : String
  DefaultTaskPodCpu : String
  DefaultTaskPodMemory : String
  Executor : String
  IsCicdEnforced : Bool
  IsDagDeployEnabled : Bool
  IsHighAvailability : Bool
  Name : String
  Region : String
  ResourceQuotaCpu : String
  ResourceQuotaMemory : String
  SchedulerSize : String
  Type' : String
  WorkerQueues : Slice WorkerQueue
  WorkspaceId : String
deriving DecidableEq

/-- The remote package's `EnvironmentVariableRequest`; the provider never builds one. -/
structure EnvironmentVariableRequest where
deriving DecidableEq

/-- The remote package's `DeploymentUpdateRequest`, with the fields `Update` sets. -/
structure DeploymentUpdateRequest where
  DefaultTaskPodCpu : String
  DefaultTaskPodMemory : String
  Description : String
  EnvironmentVariables : Slice EnvironmentVariableRequest
  Executor : String
  IsCicdEnforced : Bool
  IsDagDeployEnabled : Bool
  IsHighAvailability : Bool
  Name : String
  ResourceQuotaCpu : String
  ResourceQuotaMemory : String
  SchedulerSize : String
  Type' : String
  WorkerQueues : Slice WorkerQueue
  WorkspaceId : String
deriving DecidableEq

/-- The remote resource a call answers with, with the fields the provider reads. -/
structure Deployment where
  CloudProvider : String
  Id : String
  Name : String
  OrganizationId : String
  Region : String
  Status : String
  Type' : String
  WorkspaceId : String
deriving DecidableEq, Repr

/-- The Go pair `(response, err)` a remote call returns: `resp = none` is the nil
response, `err = none` the nil error, `err = some e` an error whose text is `e`. -/
structure CallResult where
  resp : Option Deployment
  err : Option String
deriving DecidableEq, Repr

/-- A successful call result: the response and a nil error. -/
def CallResult.ok (r : Deployment) : CallResult := ⟨some r, none⟩

/-- A call issued to the remote API, with its arguments. -/
inductive RemoteCall where
  | CreateDeployment (organizationId : String) (request : DeploymentCreateRequest)
  | GetDeployment (organizationId : String) (deploymentId : String)
  | UpdateDeployment (organizationId : String) (deploymentId : String)
      (request : DeploymentUpdateRequest)
  | DeleteDeployment (organizationId : String) (deploymentId : String)
deriving DecidableEq

/-- Is the call a `GetDeployment`? -/
def RemoteCall.isGet : RemoteCall → Bool
  | .GetDeployment _ _ => true
  | _ => false

/-- Is the call a `CreateDeployment`? -/
def RemoteCall.isCreate : RemoteCall → Bool
  | .CreateDeployment _ _ => true
  | _ => false

/-- Number of `GetDeployment` calls in a trace. -/
def getCount (calls : List RemoteCall) : Nat := calls.countP RemoteCall.isGet

/-- Number of `CreateDeployment` calls in a trace. -/
def createCount (calls : List RemoteCall) : Nat := calls.countP RemoteCall.isCreate

/-! ## Diagnostics -/

/-- Severity of a diagnostic. -/
inductive Severity where
  | Error
  | Warning
deriving DecidableEq, Repr

/-- One diagnostic of the response. -/
structure Diagnostic where
  severity : Severity
  summary : String
  detail : String
deriving DecidableEq, Repr

/-- The collection `resp.Diagnostics`. -/
abbrev Diagnostics := List Diagnostic

/-- The method `HasError`: some diagnostic has error severity. -/
def Diagnostics.HasError (diags : Diagnostics) : Bool :=
  diags.any (fun d => d.severity = Severity.Error)

/-- The framework method `Append`: each new diagnostic is added at the end unless the
collection already holds it. -/
def Diagnostics.Append (diags : Diagnostics) (new : List Diagnostic) : Diagnostics :=
  new.foldl (fun acc d => if d ∈ acc then acc else acc ++ [d]) diags

/-- The framework method `AddError`: `Append` of one error diagnostic. -/
def Diagnostics.AddError (diags : Diagnostics) (summary detail : String) : Diagnostics :=
  Diagnostics.Append diags [⟨Severity.Error, summary, detail⟩]

/-! ## Handlers -/

/-- How a handler's run ends: it returns, it panics on a nil response, or it is still
polling when the script of `GetDeployment` results is used up. -/
inductive Completion where
  | returned
  | nilDereference
  | polling
deriving DecidableEq, Repr

/-- What a handler did: the remote calls it issued in order, the diagnostics of its
response, and the declared resource it wrote with `resp.State.Set` (if it did). -/
structure Outcome where
  calls : List RemoteCall
  diags : Diagnostics
  state : Option DeploymentResourceModel
  completion : Completion
deriving DecidableEq

/-- How the wait loop of `Create` ends. -/
inductive LoopExit where
  | healthy (deployResponse : Deployment)
  | nilDereference
  | polling
deriving DecidableEq, Repr

/-- The loop `for deployResponse.Status != "HEALTHY"` of `Create`: the `GetDeployment`
calls it issues and how it ends. Each iteration fetches the deployment whose id the
current response carries and replaces the current response by the fetched one; the
returned `err` is assigned and never read. When the script has no result left for a
call the loop issues, the run is `polling`. -/
def convergenceLoop (organizationId : String) :
    List CallResult → Option Deployment → List RemoteCall × LoopExit
  | _, none => ([], LoopExit.nilDereference)
  | [], some deployResponse =>
    if deployResponse.Status ≠ "HEALTHY" then
      ([RemoteCall.GetDeployment organizationId deployResponse.Id], LoopExit.polling)
    else ([], LoopExit.healthy deployResponse)
  | result :: script, some deployResponse =>
    if deployResponse.Status ≠ "HEALTHY" then
      let rest := convergenceLoop organizationId script result.resp
      (RemoteCall.GetDeployment organizationId deployResponse.Id :: rest.1, rest.2)
    else ([], LoopExit.healthy deployResponse)

/-- The request literal `deploymentCreateRequest` of `Create`. -/
def deploymentCreateRequest (data : DeploymentResourceModel) : DeploymentCreateRequest :=
  { AstroRuntimeVersion := data.AstroRuntimeVersion.ValueString
    CloudProvider := data.CloudProvider.ValueString
    DefaultTaskPodCpu := data.DefaultTaskPodCpu.ValueString
    DefaultTaskPodMemory := data.DefaultTaskPodMemory.ValueString
    Executor := data.Executor.ValueString
    IsCicdEnforced := data.IsCicdEnforced.ValueBool
    IsDagDeployEnabled := data.IsDagDeployEnforced.ValueBool
    IsHighAvailability := data.IsHighAvailability.ValueBool
    Name := data.Name.ValueString
    Region := data.Region.ValueString
    ResourceQuotaCpu := data.ResourceQuotaCpu.ValueString
    ResourceQuotaMemory := data.ResourceQuotaMemory.ValueString
    SchedulerSize := data.SchedulerSize.ValueString
    Type' := data.Type'.ValueString
    WorkerQueues := loadWorkerQueuesFromTFState data
    WorkspaceId := data.WorkspaceId.ValueString }

/-- The request literal `deploymentUpdateRequest` of `Update`. -/
def deploymentUpdateRequest (data : DeploymentResourceModel) : DeploymentUpdateRequest :=
  { DefaultTaskPodCpu := data.DefaultTaskPodCpu.ValueString
    DefaultTaskPodMemory := data.DefaultTaskPodMemory.ValueString
    Description := data.Description.ValueString
    EnvironmentVariables := some []
    Executor := data.Executor.ValueString
    IsCicdEnforced := data.IsCicdEnforced.ValueBool
    IsDagDeployEnabled := data.IsDagDeployEnforced.ValueBool
    IsHighAvailability := data.IsHighAvailability.ValueBool
    Name := data.Name.ValueString
    ResourceQuotaCpu := data.ResourceQuotaCpu.ValueString
    ResourceQuotaMemory := data.ResourceQuotaMemory.ValueString
    SchedulerSize := data.SchedulerSize.ValueString
    Type' := data.Type'.ValueString
    WorkerQueues := loadWorkerQueuesFromTFState data
    WorkspaceId := data.WorkspaceId.ValueString }

/-- The handler `Create`. `diags` is `resp.Diagnostics` after the plan was decoded into
`data`, `createResult` what `CreateDeployment` returns, `script` what the successive
`GetDeployment` calls return. -/
def Create (diags : Diagnostics) (data : DeploymentResourceModel)
    (createResult : CallResult) (script : List CallResult) : Outcome :=
  if Diagnostics.HasError diags then ⟨[], diags, none, Completion.returned⟩
  else
    let call := RemoteCall.CreateDeployment data.OrganizationId.ValueString
      (deploymentCreateRequest data)
    match createResult.err with
    | some err =>
      ⟨[call],
        Diagnostics.AddError diags "Client Error"
          ("Unable to create example, got error: " ++ err),
        none, Completion.returned⟩
    | none =>
      match convergenceLoop data.OrganizationId.ValueString script createResult.resp with
      | (polls, LoopExit.healthy deployResponse) =>
        ⟨call :: polls, diags,
          some { data with
            CloudProvider := StringValue (ToUpper deployResponse.CloudProvider)
            Id := StringValue deployResponse.Id
            Name := StringValue deployResponse.Name
            OrganizationId := StringValue deployResponse.OrganizationId
            Region := StringValue deployResponse.Region
            Type' := StringValue deployResponse.Type'
            WorkspaceId := StringValue deployResponse.WorkspaceId },
          Completion.returned⟩
      | (polls, LoopExit.nilDereference) =>
        ⟨call :: polls, diags, none, Completion.nilDereference⟩
      | (polls, LoopExit.polling) => ⟨call :: polls, diags, none, Completion.polling⟩

/-- The handler `Read`. `diags` is `resp.Diagnostics` after the state was decoded into
`data` (checked only before the state is written), `getResult` what `GetDeployment`
returns. -/
def Read (diags : Diagnostics) (data : DeploymentResourceModel) (getResult : CallResult) :
    Outcome :=
  let call := RemoteCall.GetDeployment data.OrganizationId.ValueString data.Id.ValueString
  match getResult.err with
  | some err =>
    ⟨[call],
      Diagnostics.AddError diags "Client Error"
        ("Unable to create example, got error: " ++ err),
      none, Completion.returned⟩
  | none =>
    match getResult.resp with
    | none => ⟨[call], diags, none, Completion.nilDereference⟩
    | some deployment =>
      if Diagnostics.HasError diags then ⟨[call], diags, none, Completion.returned⟩
      else
        ⟨[call], diags,
          some { data with
            CloudProvider := StringValue (ToUpper deployment.CloudProvider)
            Id := StringValue deployment.Id
            Name := StringValue deployment.Name
            OrganizationId := StringValue deployment.OrganizationId
            Region := StringValue deployment.Region
            Type' := StringValue deployment.Type'
            WorkspaceId := StringValue deployment.WorkspaceId },
          Completion.returned⟩

/-- The handler `Update`. `updateResult` is what `UpdateDeployment` returns; the
response is only logged. -/
def Update (diags : Diagnostics) (data : DeploymentResourceModel)
    (updateResult : CallResult) : Outcome :=
  if Diagnostics.HasError diags then ⟨[], diags, none, Completion.returned⟩
  else
    let call := RemoteCall.UpdateDeployment data.OrganizationId.ValueString
      data.Id.ValueString (deploymentUpdateRequest data)
    match updateResult.err with
    | some err =>
      ⟨[call],
        Diagnostics.AddError diags "Client Error"
          ("Unable to update example, got error: " ++ err),
        none, Completion.returned⟩
    | none => ⟨[call], diags, some data, Completion.returned⟩

/-- The handler `Delete`. `deleteErr` is the error `DeleteDeployment` returns. The
handler writes no state. -/
def Delete (diags : Diagnostics) (data : DeploymentResourceModel)
    (deleteErr : Option String) : Outcome :=
  if Diagnostics.HasError diags then ⟨[], diags, none, Completion.returned⟩
  else
    let call := RemoteCall.DeleteDeployment data.OrganizationId.ValueString
      data.Id.ValueString
    match deleteErr with
    | some err =>
      ⟨[call],
        Diagnostics.AddError diags "Client Error"
          ("Unable to delete example, got error: " ++ err),
        none, Completion.returned⟩
    | none => ⟨[call], diags, none, Completion.returned⟩

/-! ## Sample values -/

/-- The worker queue `default`: min 1, max 5, concurrency 1. -/
def defaultQueue : WorkerQueueModel :=
  { AstroMachine := .value "A5"
    Id := .null
    IsDefault := .value true
    MaxWorkerCount := .value ⟨5, by norm_num, by norm_num⟩
    MinWorkerCount := .value ⟨1, by norm_num, by norm_num⟩
    Name := .value "default"
    WorkerConcurrency := .value ⟨1, by norm_num, by norm_num⟩ }

/-- The worker queue `extra`: min 0, max 3, concurrency 2. -/
def extraQueue : WorkerQueueModel :=
  { AstroMachine := .value "A10"
    Id := .value "wq-2"
    IsDefault := .value false
    MaxWorkerCount := .value ⟨3, by norm_num, by norm_num⟩
    MinWorkerCount := .value ⟨0, by norm_num, by norm_num⟩
    Name := .value "extra"
    WorkerConcurrency := .value ⟨2, by norm_num, by norm_num⟩ }

/-- A declared deployment `prod` in `us-east-1` with two worker queues and a lower-case
cloud provider. -/
def prod : DeploymentResourceModel :=
  { AstroRuntimeVersion := .value "9.1.0"
    CloudProvider := .value "aws"
    DefaultTaskPodCpu := .value "0.25"
    DefaultTaskPodMemory := .value "0.5Gi"
    Description := .value "production"
    Executor := .value "CELERY"
    Id := .unknown
    IsCicdEnforced := .value true
    IsDagDeployEnforced := .value false
    IsHighAvailability := .value true
    Name := .value "prod"
    OrganizationId := .value "org-1"
    Region := .value "us-east-1"
    ResourceQuotaCpu := .value "10"
    ResourceQuotaMemory := .value "20Gi"
    SchedulerSize := .value "SMALL"
    Type' := .value "STANDARD"
    WorkerQueues := some [defaultQueue, extraQueue]
    WorkspaceId := .value "ws-1" }

/-- The remote resource that echoes `prod`, with the given id and status. -/
def remoteProd (id status : String) : Deployment :=
  { CloudProvider := "aws"
    Id := id
    Name := "prod"
    OrganizationId := "org-1"
    Region := "us-east-1"
    Status := status
    Type' := "STANDARD"
    WorkspaceId := "ws-1" }

/-! ## Lemmas -/

theorem goInt_val (x : Int64) : goInt x = x.val := by
  have h1 := x.lo
  have h2 := x.hi
  simp only [goInt, intBits]
  norm_num at h1 h2 ⊢
  omega

theorem Slice.foldl_append_elems {α β : Type} (g : α → β) (xs : List α) (acc : Slice β) :
    (xs.foldl (fun s x => Slice.append s (g x)) acc).elems = acc.elems ++ xs.map g := by
  induction xs generalizing acc with
  | nil => simp
  | cons x xs ih =>
    rw [List.foldl_cons, ih]
    cases acc <;> simp [Slice.append, Slice.elems]

theorem loadWorkerQueuesFromTFState_elems (data : DeploymentResourceModel) :
    (loadWorkerQueuesFromTFState data).elems =
      data.WorkerQueues.elems.map (fun value =>
        ({ AstroMachine := value.AstroMachine.ValueString
           IsDefault := value.IsDefault.ValueBool
           MaxWorkerCount := value.MaxWorkerCount.ValueInt64.val
           MinWorkerCount := value.MinWorkerCount.ValueInt64.val
           Name := value.Name.ValueString
           WorkerConcurrency := value.WorkerConcurrency.ValueInt64.val } : WorkerQueue)) := by
  unfold loadWorkerQueuesFromTFState
  rw [Slice.foldl_append_elems (fun value : WorkerQueueModel =>
        ({ AstroMachine := value.AstroMachine.ValueString
           IsDefault := value.IsDefault.ValueBool
           MaxWorkerCount := goInt value.MaxWorkerCount.ValueInt64
           MinWorkerCount := goInt value.MinWorkerCount.ValueInt64
           Name := value.Name.ValueString
           WorkerConcurrency := goInt value.WorkerConcurrency.ValueInt64 } : WorkerQueue))]
  simp [Slice.elems, goInt_val]

theorem Slice.eq_some_elems {α : Type} (s : Slice α) (h : s.elems ≠ []) :
    s = some s.elems := by
  cases s with
  | none => exact absurd rfl h
  | some xs => rfl

theorem loadWorkerQueuesFromTFState_nil (data : DeploymentResourceModel)
    (h : data.WorkerQueues.elems = []) : loadWorkerQueuesFromTFState data = none := by
  simp [loadWorkerQueuesFromTFState, h]

theorem loadWorkerQueuesFromTFState_some (data : DeploymentResourceModel)
    (h : data.WorkerQueues.elems ≠ []) :
    loadWorkerQueuesFromTFState data = some (loadWorkerQueuesFromTFState data).elems := by
  apply Slice.eq_some_elems
  rw [loadWorkerQueuesFromTFState_elems]
  simpa using h

theorem Slice.elems_map {α β : Type} (f : α → β) (s : Slice α) :
    Slice.elems (Option.map (List.map f) s) = s.elems.map f := by
  cases s <;> rfl

theorem Diagnostics.mem_AddError (diags : Diagnostics) (summary detail : String) :
    (⟨Severity.Error, summary, detail⟩ : Diagnostic) ∈
      Diagnostics.AddError diags summary detail := by
  unfold Diagnostics.AddError Diagnostics.Append
  by_cases h : (⟨Severity.Error, summary, detail⟩ : Diagnostic) ∈ diags <;> simp [h]

theorem Diagnostics.HasError_AddError (diags : Diagnostics) (summary detail : String) :
    Diagnostics.HasError (Diagnostics.AddError diags summary detail) = true := by
  unfold Diagnostics.HasError
  rw [List.any_eq_true]
  exact ⟨_, Diagnostics.mem_AddError diags summary detail, by simp⟩

theorem convergenceLoop_healthy (organizationId : String) (script : List CallResult)
    (r : Deployment) (h : r.Status = "HEALTHY") :
    convergenceLoop organizationId script (some r) = ([], LoopExit.healthy r) := by
  cases script <;> simp [convergenceLoop, h]

theorem convergenceLoop_step (organizationId : String) (result : CallResult)
    (script : List CallResult) (r : Deployment) (h : r.Status ≠ "HEALTHY") :
    convergenceLoop organizationId (result :: script) (some r) =
      (RemoteCall.GetDeployment organizationId r.Id ::
          (convergenceLoop organizationId script result.resp).1,
        (convergenceLoop organizationId script result.resp).2) := by
  simp [convergenceLoop, h]

theorem convergenceLoop_first_healthy (organizationId : String) (pre : List Deployment)
    (h : Deployment) (post : List CallResult) (c : Deployment)
    (hc : c.Status ≠ "HEALTHY") (hpre : ∀ p ∈ pre, p.Status ≠ "HEALTHY")
    (hh : h.Status = "HEALTHY") :
    convergenceLoop organizationId (pre.map CallResult.ok ++ CallResult.ok h :: post)
        (some c) =
      ((c :: pre).map (fun r => RemoteCall.GetDeployment organizationId r.Id),
        LoopExit.healthy h) := by
  induction pre generalizing c with
  | nil =>
    rw [List.map_nil, List.nil_append, convergenceLoop_step _ _ _ _ hc]
    simp [CallResult.ok, convergenceLoop_healthy _ _ _ hh]
  | cons p pre ih =>
    rw [List.map_cons, List.cons_append, convergenceLoop_step _ _ _ _ hc]
    have hp : p.Status ≠ "HEALTHY" := hpre p (List.mem_cons_self _ _)
    have ih2 := ih p hp (fun q hq => hpre q (List.mem_cons_of_mem _ hq))
    simp only [CallResult.ok] at ih2 ⊢
    rw [ih2]
    simp

theorem getCount_map_get (organizationId : String) (rs : List Deployment) :
    getCount (rs.map (fun r => RemoteCall.GetDeployment organizationId r.Id)) =
      rs.length := by
  induction rs with
  | nil => rfl
  | cons r rs ih =>
    simp only [getCount] at ih
    simp [getCount, List.countP_cons, RemoteCall.isGet, ih]

theorem createCount_map_get (organizationId : String) (rs : List Deployment) :
    createCount (rs.map (fun r => RemoteCall.GetDeployment organizationId r.Id)) = 0 := by
  induction rs with
  | nil => rfl
  | cons r rs ih =>
    simp only [createCount] at ih
    simp [createCount, List.countP_cons, RemoteCall.isCreate, ih]

theorem Create_of_loop_healthy (diags : Diagnostics) (data : DeploymentResourceModel)
    (resp : Option Deployment) (script : List CallResult) (polls : List RemoteCall)
    (r : Deployment) (hd : Diagnostics.HasError diags = false)
    (hl : convergenceLoop data.OrganizationId.ValueString script resp =
      (polls, LoopExit.healthy r)) :
    Create diags data ⟨resp, none⟩ script =
      ⟨RemoteCall.CreateDeployment data.OrganizationId.ValueString
          (deploymentCreateRequest data) :: polls,
        diags,
        some { data with
          CloudProvider := StringValue (ToUpper r.CloudProvider)
          Id := StringValue r.Id
          Name := StringValue r.Name
          OrganizationId := StringValue r.OrganizationId
          Region := StringValue r.Region
          Type' := StringValue r.Type'
          WorkspaceId := StringValue r.WorkspaceId },
        Completion.returned⟩ := by
  unfold Create
  simp only [hd, hl]
  simp

theorem Create_diags_of_create_ok (diags : Diagnostics) (data : DeploymentResourceModel)
    (resp : Option Deployment) (script : List CallResult) :
    (Create diags data ⟨resp, none⟩ script).diags = diags := by
  unfold Create
  split
  · rfl
  · simp only
    rcases convergenceLoop data.OrganizationId.ValueString script resp with
      ⟨polls, _ | _ | _⟩ <;> rfl

theorem Create_calls_of_create_ok (diags : Diagnostics) (data : DeploymentResourceModel)
    (resp : Option Deployment) (script : List CallResult)
    (hd : Diagnostics.HasError diags = false) :
    (Create diags data ⟨resp, none⟩ script).calls =
      RemoteCall.CreateDeployment data.OrganizationId.ValueString
          (deploymentCreateRequest data) ::
        (convergenceLoop data.OrganizationId.ValueString script resp).1 := by
  unfold Create
  simp only [hd]
  rcases convergenceLoop data.OrganizationId.ValueString script resp with
    ⟨polls, _ | _ | _⟩ <;> simp

theorem Create_polling_of_loop_polling (diags : Diagnostics)
    (data : DeploymentResourceModel) (resp : Option Deployment) (script : List CallResult)
    (hd : Diagnostics.HasError diags = false)
    (hl : (convergenceLoop data.OrganizationId.ValueString script resp).2 =
      LoopExit.polling) :
    (Create diags data ⟨resp, none⟩ script).completion = Completion.polling := by
  unfold Create
  simp only [hd]
  rcases hc : convergenceLoop data.OrganizationId.ValueString script resp with
    ⟨polls, _ | _ | _⟩ <;> rw [hc] at hl <;> simp at hl ⊢

/-! ## The worker-queue mapping -/

/-- C4: `loadWorkerQueuesFromTFState` maps the declared worker queues element-wise and
in order. The result has as many entries as the declared list; entry `i` carries the
machine class, default flag, max and min worker count, name and worker concurrency of
declared queue `i`; the declared queue's own id has no influence on the result; and the
requests `Create` and `Update` send carry exactly this list. -/
theorem loadWorkerQueuesFromTFState_maps_in_order (data : DeploymentResourceModel) :
    (loadWorkerQueuesFromTFState data).len = data.WorkerQueues.len ∧
    (∀ (i : Nat) (q : WorkerQueueModel), data.WorkerQueues.elems[i]? = some q →
      ∃ w : WorkerQueue, (loadWorkerQueuesFromTFState data).elems[i]? = some w ∧
        w.AstroMachine = q.AstroMachine.ValueString ∧
        w.IsDefault = q.IsDefault.ValueBool ∧
        w.MaxWorkerCount = q.MaxWorkerCount.ValueInt64.val ∧
        w.MinWorkerCount = q.MinWorkerCount.ValueInt64.val ∧
        w.Name = q.Name.ValueString ∧
        w.WorkerConcurrency = q.WorkerConcurrency.ValueInt64.val) ∧
    (∀ ids : WorkerQueueModel → TfString,
      loadWorkerQueuesFromTFState
          { data with
            WorkerQueues :=
              data.WorkerQueues.map (List.map (fun q => { q with Id := ids q })) } =
        loadWorkerQueuesFromTFState data) ∧
    (deploymentCreateRequest data).WorkerQueues = loadWorkerQueuesFromTFState data ∧
    (deploymentUpdateRequest data).WorkerQueues = loadWorkerQueuesFromTFState data ∧
    (∀ (diags : Diagnostics) (createResult : CallResult) (script : List CallResult),
      Diagnostics.HasError diags = false →
      (Create diags data createResult script).calls.head? =
        some (RemoteCall.CreateDeployment data.OrganizationId.ValueString
          (deploymentCreateRequest data))) ∧
    (∀ (diags : Diagnostics) (updateResult : CallResult),
      Diagnostics.HasError diags = false →
      (Update diags data updateResult).calls =
        [RemoteCall.UpdateDeployment data.OrganizationId.ValueString data.Id.ValueString
          (deploymentUpdateRequest data)]) := by
  refine ⟨?_, ?_, ?_, rfl, rfl, ?_, ?_⟩
  · simp [Slice.len, loadWorkerQueuesFromTFState_elems]
  · intro i q hq
    rw [loadWorkerQueuesFromTFState_elems, List.getElem?_map, hq]
    exact ⟨_, rfl, rfl, rfl, rfl, rfl, rfl, rfl⟩
  · intro ids
    by_cases h : data.WorkerQueues.elems = []
    · rw [loadWorkerQueuesFromTFState_nil data h, loadWorkerQueuesFromTFState_nil]
      simp [Slice.elems_map, h]
    · rw [loadWorkerQueuesFromTFState_some data h, loadWorkerQueuesFromTFState_some]
      · rw [loadWorkerQueuesFromTFState_elems, loadWorkerQueuesFromTFState_elems]
        simp [Slice.elems_map, List.map_map, Function.comp_def]
      · simpa [Slice.elems_map] using h
  · intro diags createResult script hd
    unfold Create
    simp only [hd]
    rcases createResult with ⟨resp, _ | err⟩
    · simp only
      rcases convergenceLoop data.OrganizationId.ValueString script resp with
        ⟨polls, _ | _ | _⟩ <;> simp
    · simp
  · intro diags updateResult hd
    unfold Update
    simp only [hd]
    rcases updateResult with ⟨resp, _ | err⟩ <;> simp

/-- C9 fails on the code: for the empty declared list and for the nil declared list the
mapping returns the nil slice, not a present empty list. -/
theorem loadWorkerQueuesFromTFState_empty_is_nil :
    (loadWorkerQueuesFromTFState { prod with WorkerQueues := some [] }).isSome = false ∧
    (loadWorkerQueuesFromTFState { prod with WorkerQueues := none }).isSome = false := by
  decide

/-- C9 as amended: for a declared resource whose worker-queue list is empty or nil,
`loadWorkerQueuesFromTFState` returns the nil slice, whose length is 0. -/
theorem loadWorkerQueuesFromTFState_of_empty (data : DeploymentResourceModel)
    (h : data.WorkerQueues = none ∨ data.WorkerQueues = some []) :
    loadWorkerQueuesFromTFState data = none ∧ (loadWorkerQueuesFromTFState data).len = 0 := by
  have he : data.WorkerQueues.elems = [] := by
    rcases h with h | h <;> rw [h] <;> rfl
  rw [loadWorkerQueuesFromTFState_nil data he]
  exact ⟨rfl, rfl⟩

/-- C9 as amended, at the declared resource `prod` with an empty worker-queue list. -/
theorem loadWorkerQueuesFromTFState_of_empty_witness :
    loadWorkerQueuesFromTFState { prod with WorkerQueues := some [] } = none ∧
    (loadWorkerQueuesFromTFState { prod with WorkerQueues := some [] }).len = 0 :=
  loadWorkerQueuesFromTFState_of_empty { prod with WorkerQueues := some [] } (Or.inr rfl)

/-! ## The convergence wait of `Create` -/

/-- C1: the convergence wait of `Create` performs exactly as many fetches as it takes to
see the first status `"HEALTHY"`. When the plan decoded without error and the create
call succeeds with response `c`: if `c` is healthy, `Create` issues the one
`CreateDeployment` call and no `GetDeployment` call, and writes a state with the id of
`c`; if `c` is not healthy and the poll script consists of successful non-healthy
responses `pre`, then a successful healthy response `h` (position `pre.length + 1`), then
anything, `Create` issues one `CreateDeployment` call and exactly `pre.length + 1`
`GetDeployment` calls (for the id of `c`, then of each response of `pre`), returns
without adding a diagnostic and writes a state with the id of `h`. -/
theorem Create_fetches_until_first_healthy (diags : Diagnostics)
    (data : DeploymentResourceModel) (c : Deployment)
    (hd : Diagnostics.HasError diags = false) :
    (c.Status = "HEALTHY" → ∀ script : List CallResult,
      (Create diags data (CallResult.ok c) script).calls =
        [RemoteCall.CreateDeployment data.OrganizationId.ValueString
          (deploymentCreateRequest data)] ∧
      getCount (Create diags data (CallResult.ok c) script).calls = 0 ∧
      createCount (Create diags data (CallResult.ok c) script).calls = 1 ∧
      (Create diags data (CallResult.ok c) script).completion = Completion.returned ∧
      (Create diags data (CallResult.ok c) script).diags = diags ∧
      ∃ s, (Create diags data (CallResult.ok c) script).state = some s ∧
        s.Id = StringValue c.Id) ∧
    (c.Status ≠ "HEALTHY" →
      ∀ (pre : List Deployment) (h : Deployment) (post : List CallResult),
      (∀ p ∈ pre, p.Status ≠ "HEALTHY") → h.Status = "HEALTHY" →
      (Create diags data (CallResult.ok c)
          (pre.map CallResult.ok ++ CallResult.ok h :: post)).calls =
        RemoteCall.CreateDeployment data.OrganizationId.ValueString
            (deploymentCreateRequest data) ::
          (c :: pre).map
            (fun r => RemoteCall.GetDeployment data.OrganizationId.ValueString r.Id) ∧
      getCount (Create diags data (CallResult.ok c)
          (pre.map CallResult.ok ++ CallResult.ok h :: post)).calls = pre.length + 1 ∧
      createCount (Create diags data (CallResult.ok c)
          (pre.map CallResult.ok ++ CallResult.ok h :: post)).calls = 1 ∧
      (Create diags data (CallResult.ok c)
          (pre.map CallResult.ok ++ CallResult.ok h :: post)).completion =
        Completion.returned ∧
      (Create diags data (CallResult.ok c)
          (pre.map CallResult.ok ++ CallResult.ok h :: post)).diags = diags ∧
      ∃ s, (Create diags data (CallResult.ok c)
          (pre.map CallResult.ok ++ CallResult.ok h :: post)).state = some s ∧
        s.Id = StringValue h.Id) := by
  constructor
  · intro hc script
    rw [CallResult.ok, Create_of_loop_healthy diags data (some c) script [] c hd
      (convergenceLoop_healthy _ _ _ hc)]
    exact ⟨rfl, rfl, rfl, rfl, rfl, _, rfl, rfl⟩
  · intro hc pre h post hpre hh
    have hl := convergenceLoop_first_healthy data.OrganizationId.ValueString pre h post c
      hc hpre hh
    rw [CallResult.ok, Create_of_loop_healthy diags data (some c) _ _ h hd hl]
    refine ⟨rfl, ?_, ?_, rfl, rfl, _, rfl, rfl⟩
    · have := getCount_map_get data.OrganizationId.ValueString (c :: pre)
      simp only [getCount] at this
      simp only [getCount, List.countP_cons, RemoteCall.isGet, this]
      simp
    · have := createCount_map_get data.OrganizationId.ValueString (c :: pre)
      simp only [createCount] at this
      simp only [createCount, List.countP_cons, RemoteCall.isCreate, this]
      simp

/-- C1 at the script `[provisioning, provisioning, healthy]`: exactly 3 fetches, one
create call, and the state carries the id of the third polled response. -/
theorem Create_fetches_until_first_healthy_witness :
    getCount (Create [] prod (CallResult.ok (remoteProd "dep-0" "PROVISIONING"))
      (List.map CallResult.ok
          [remoteProd "dep-1" "PROVISIONING", remoteProd "dep-2" "PROVISIONING"] ++
        CallResult.ok (remoteProd "dep-3" "HEALTHY") :: [])).calls = 2 + 1 ∧
    createCount (Create [] prod (CallResult.ok (remoteProd "dep-0" "PROVISIONING"))
      (List.map CallResult.ok
          [remoteProd "dep-1" "PROVISIONING", remoteProd "dep-2" "PROVISIONING"] ++
        CallResult.ok (remoteProd "dep-3" "HEALTHY") :: [])).calls = 1 ∧
    ∃ s, (Create [] prod (CallResult.ok (remoteProd "dep-0" "PROVISIONING"))
      (List.map CallResult.ok
          [remoteProd "dep-1" "PROVISIONING", remoteProd "dep-2" "PROVISIONING"] ++
        CallResult.ok (remoteProd "dep-3" "HEALTHY") :: [])).state = some s ∧
      s.Id = StringValue "dep-3" :=
  have h := (Create_fetches_until_first_healthy [] prod
    (remoteProd "dep-0" "PROVISIONING") rfl).2 (by decide)
    [remoteProd "dep-1" "PROVISIONING", remoteProd "dep-2" "PROVISIONING"]
    (remoteProd "dep-3" "HEALTHY") [] (by decide) rfl
  ⟨h.2.1, h.2.2.1, h.2.2.2.2.2⟩

/-- C2 fails on the code: with a non-healthy create response and the poll script
`[provisioning, error]`, `Create` reports no failure and, after the two fetches, issues
a third `GetDeployment` call. -/
theorem Create_error_status_keeps_polling :
    getCount (Create [] prod (CallResult.ok (remoteProd "dep-1" "provisioning"))
      [CallResult.ok (remoteProd "dep-1" "provisioning"),
        CallResult.ok (remoteProd "dep-1" "error")]).calls = 3 ∧
    Diagnostics.HasError (Create [] prod (CallResult.ok (remoteProd "dep-1" "provisioning"))
      [CallResult.ok (remoteProd "dep-1" "provisioning"),
        CallResult.ok (remoteProd "dep-1" "error")]).diags = false ∧
    (Create [] prod (CallResult.ok (remoteProd "dep-1" "provisioning"))
      [CallResult.ok (remoteProd "dep-1" "provisioning"),
        CallResult.ok (remoteProd "dep-1" "error")]).completion = Completion.polling := by
  decide

/-- C2 as amended: a failure status does not end the wait, only `"HEALTHY"` does. When
the plan decoded without error, the create response `c` and the first two polled
responses `p` and `e` are successful and not healthy, `Create` adds no diagnostic
whatever follows in the script, its first four calls are the create call and the fetches
for the ids of `c`, `p` and `e` (so a third fetch follows the failure status), and on the
script `[p, e]` it is still polling. -/
theorem Create_polls_past_failure_status (diags : Diagnostics)
    (data : DeploymentResourceModel) (c p e : Deployment) (rest : List CallResult)
    (hd : Diagnostics.HasError diags = false) (hc : c.Status ≠ "HEALTHY")
    (hp : p.Status ≠ "HEALTHY") (he : e.Status ≠ "HEALTHY") :
    (Create diags data (CallResult.ok c)
        (CallResult.ok p :: CallResult.ok e :: rest)).calls.take 4 =
      [RemoteCall.CreateDeployment data.OrganizationId.ValueString
          (deploymentCreateRequest data),
        RemoteCall.GetDeployment data.OrganizationId.ValueString c.Id,
        RemoteCall.GetDeployment data.OrganizationId.ValueString p.Id,
        RemoteCall.GetDeployment data.OrganizationId.ValueString e.Id] ∧
    3 ≤ getCount (Create diags data (CallResult.ok c)
        (CallResult.ok p :: CallResult.ok e :: rest)).calls ∧
    (Create diags data (CallResult.ok c)
        (CallResult.ok p :: CallResult.ok e :: rest)).diags = diags ∧
    (Create diags data (CallResult.ok c)
        [CallResult.ok p, CallResult.ok e]).completion = Completion.polling := by
  have key : ∀ rest : List CallResult, ∃ tail x,
      convergenceLoop data.OrganizationId.ValueString
          (CallResult.ok p :: CallResult.ok e :: rest) (some c) =
        (RemoteCall.GetDeployment data.OrganizationId.ValueString c.Id ::
          RemoteCall.GetDeployment data.OrganizationId.ValueString p.Id ::
          RemoteCall.GetDeployment data.OrganizationId.ValueString e.Id :: tail, x) ∧
        (rest = [] → x = LoopExit.polling) := by
    intro rest
    rw [convergenceLoop_step _ _ _ _ hc]
    simp only [CallResult.ok]
    rw [convergenceLoop_step _ _ _ _ hp]
    cases rest with
    | nil => exact ⟨[], LoopExit.polling, by simp [convergenceLoop, he], fun _ => rfl⟩
    | cons r rest =>
      rw [convergenceLoop_step _ _ _ _ he]
      exact ⟨_, _, rfl, fun h => absurd h (List.cons_ne_nil _ _)⟩
  refine ⟨?_, ?_, Create_diags_of_create_ok _ _ _ _, ?_⟩
  · obtain ⟨tail, x, hx, -⟩ := key rest
    rw [CallResult.ok, Create_calls_of_create_ok _ _ _ _ hd, hx]
    rfl
  · obtain ⟨tail, x, hx, -⟩ := key rest
    rw [CallResult.ok, Create_calls_of_create_ok _ _ _ _ hd, hx]
    simp [getCount, List.countP_cons, RemoteCall.isGet]
  · obtain ⟨tail, x, hx, hnil⟩ := key []
    rw [CallResult.ok, Create_polling_of_loop_polling _ _ _ _ hd]
    rw [hx]
    exact hnil rfl

/-- C2 as amended, at the script `[provisioning, error, healthy]`: the failure status is
followed by a third fetch and no diagnostic is added. -/
theorem Create_polls_past_failure_status_witness :
    3 ≤ getCount (Create [] prod (CallResult.ok (remoteProd "dep-1" "provisioning"))
        (CallResult.ok (remoteProd "dep-1" "provisioning") ::
          CallResult.ok (remoteProd "dep-1" "error") ::
          [CallResult.ok (remoteProd "dep-1" "HEALTHY")])).calls ∧
    (Create [] prod (CallResult.ok (remoteProd "dep-1" "provisioning"))
        (CallResult.ok (remoteProd "dep-1" "provisioning") ::
          CallResult.ok (remoteProd "dep-1" "error") ::
          [CallResult.ok (remoteProd "dep-1" "HEALTHY")])).diags = [] :=
  have h := Create_polls_past_failure_status [] prod (remoteProd "dep-1" "provisioning")
    (remoteProd "dep-1" "provisioning") (remoteProd "dep-1" "error")
    [CallResult.ok (remoteProd "dep-1" "HEALTHY")] rfl (by decide) (by decide) (by decide)
  ⟨h.2.1, h.2.2.1⟩

/-- C3, the code at the failing input: the second `GetDeployment` result carries the
error `"connection reset"`. When that result also carries a response, `Create` goes on
polling, makes a third fetch and ends as a success with no diagnostic; when it carries
the nil response, the run ends in a nil dereference with no diagnostic. In neither
run is the error reported. -/
theorem Create_swallows_poll_error :
    (getCount (Create [] prod (CallResult.ok (remoteProd "dep-1" "CREATING"))
        [CallResult.ok (remoteProd "dep-1" "CREATING"),
          ⟨some (remoteProd "dep-1" "CREATING"), some "connection reset"⟩,
          CallResult.ok (remoteProd "dep-1" "HEALTHY")]).calls = 3 ∧
      (Create [] prod (CallResult.ok (remoteProd "dep-1" "CREATING"))
        [CallResult.ok (remoteProd "dep-1" "CREATING"),
          ⟨some (remoteProd "dep-1" "CREATING"), some "connection reset"⟩,
          CallResult.ok (remoteProd "dep-1" "HEALTHY")]).diags = [] ∧
      (Create [] prod (CallResult.ok (remoteProd "dep-1" "CREATING"))
        [CallResult.ok (remoteProd "dep-1" "CREATING"),
          ⟨some (remoteProd "dep-1" "CREATING"), some "connection reset"⟩,
          CallResult.ok (remoteProd "dep-1" "HEALTHY")]).state.isSome = true ∧
      (Create [] prod (CallResult.ok (remoteProd "dep-1" "CREATING"))
        [CallResult.ok (remoteProd "dep-1" "CREATING"),
          ⟨some (remoteProd "dep-1" "CREATING"), some "connection reset"⟩,
          CallResult.ok (remoteProd "dep-1" "HEALTHY")]).completion =
        Completion.returned) ∧
    ((Create [] prod (CallResult.ok (remoteProd "dep-1" "CREATING"))
        [CallResult.ok (remoteProd "dep-1" "CREATING"),
          ⟨none, some "connection reset"⟩]).diags = [] ∧
      (Create [] prod (CallResult.ok (remoteProd "dep-1" "CREATING"))
        [CallResult.ok (remoteProd "dep-1" "CREATING"),
          ⟨none, some "connection reset"⟩]).completion = Completion.nilDereference) := by
  decide

/-! ## The update request -/

/-- C5: the update request does not carry region, cloud provider or runtime version.
Replacing these three fields of a declared resource by any values leaves the
`DeploymentUpdateRequest` built by `Update` the same, and so the remote calls `Update`
issues. -/
theorem Update_request_ignores_region_provider_runtime (data : DeploymentResourceModel)
    (region cloudProvider astroRuntimeVersion : TfString) :
    deploymentUpdateRequest
        { data with
          Region := region
          CloudProvider := cloudProvider
          AstroRuntimeVersion := astroRuntimeVersion } =
      deploymentUpdateRequest data ∧
    ∀ (diags : Diagnostics) (updateResult : CallResult),
      (Update diags
          { data with
            Region := region
            CloudProvider := cloudProvider
            AstroRuntimeVersion := astroRuntimeVersion } updateResult).calls =
        (Update diags data updateResult).calls := by
  refine ⟨rfl, ?_⟩
  intro diags updateResult
  unfold Update
  split
  · rfl
  · rcases updateResult with ⟨resp, _ | err⟩ <;> rfl

/-- C10 fails on the code: two declared resources that differ only in workspace id give
different update requests. -/
theorem Update_request_differs_on_workspace :
    deploymentUpdateRequest { prod with WorkspaceId := TfString.value "ws-2" } ≠
      deploymentUpdateRequest prod := by
  decide

/-- C10 as amended: the workspace reference is forwarded on update. The update request's
workspace id is the string value of the declared workspace id, and replacing the
declared workspace id leaves the update request the same exactly when the string value
is the same. -/
theorem Update_request_carries_workspace (data : DeploymentResourceModel)
    (workspaceId : TfString) :
    (deploymentUpdateRequest data).WorkspaceId = data.WorkspaceId.ValueString ∧
    (deploymentUpdateRequest { data with WorkspaceId := workspaceId } =
        deploymentUpdateRequest data ↔
      workspaceId.ValueString = data.WorkspaceId.ValueString) := by
  refine ⟨rfl, ?_, ?_⟩
  · intro h
    exact congrArg DeploymentUpdateRequest.WorkspaceId h
  · intro h
    have hl : loadWorkerQueuesFromTFState { data with WorkspaceId := workspaceId } =
        loadWorkerQueuesFromTFState data := rfl
    simp only [deploymentUpdateRequest, hl, h]

/-! ## Read -/

/-- C6: a successful `Read` overwrites only the fields echoed by the remote resource and
upper-cases the cloud provider. When the state decoded without error and `GetDeployment`
returns the resource `r` without error, `Read` issues that one call and writes a state
whose id, name, organization id, region, type and workspace id are those of `r`, whose
cloud provider is the upper-cased one of `r` (`"aws"` gives `"AWS"`), and whose every
other field, the worker-queue list included, is that of the declared resource. -/
theorem Read_overwrites_only_echoed_fields (diags : Diagnostics)
    (d : DeploymentResourceModel) (r : Deployment)
    (hd : Diagnostics.HasError diags = false) :
    (Read diags d (CallResult.ok r)).calls =
      [RemoteCall.GetDeployment d.OrganizationId.ValueString d.Id.ValueString] ∧
    (Read diags d (CallResult.ok r)).diags = diags ∧
    ∃ s, (Read diags d (CallResult.ok r)).state = some s ∧
      s.Id = StringValue r.Id ∧
      s.Name = StringValue r.Name ∧
      s.OrganizationId = StringValue r.OrganizationId ∧
      s.Region = StringValue r.Region ∧
      s.Type' = StringValue r.Type' ∧
      s.WorkspaceId = StringValue r.WorkspaceId ∧
      s.CloudProvider = StringValue (ToUpper r.CloudProvider) ∧
      (r.CloudProvider = "aws" → s.CloudProvider = StringValue "AWS") ∧
      s.AstroRuntimeVersion = d.AstroRuntimeVersion ∧
      s.Description = d.Description ∧
      s.Executor = d.Executor ∧
      s.DefaultTaskPodCpu = d.DefaultTaskPodCpu ∧
      s.DefaultTaskPodMemory = d.DefaultTaskPodMemory ∧
      s.ResourceQuotaCpu = d.ResourceQuotaCpu ∧
      s.ResourceQuotaMemory = d.ResourceQuotaMemory ∧
      s.SchedulerSize = d.SchedulerSize ∧
      s.IsCicdEnforced = d.IsCicdEnforced ∧
      s.IsDagDeployEnforced = d.IsDagDeployEnforced ∧
      s.IsHighAvailability = d.IsHighAvailability ∧
      s.WorkerQueues = d.WorkerQueues := by
  unfold Read
  simp only [CallResult.ok, hd]
  refine ⟨rfl, rfl, _, rfl, rfl, rfl, rfl, rfl, rfl, rfl, rfl, ?_, rfl, rfl, rfl, rfl, rfl,
    rfl, rfl, rfl, rfl, rfl, rfl, rfl⟩
  intro h
  simp only [h]
  rfl

/-- C6 at the declared resource `prod` and a remote resource with cloud provider
`"aws"`: the state written carries `"AWS"` and the declared worker queues. -/
theorem Read_overwrites_only_echoed_fields_witness :
    ∃ s, (Read [] prod (CallResult.ok (remoteProd "dep-1" "HEALTHY"))).state = some s ∧
      s.Id = StringValue "dep-1" ∧
      s.CloudProvider = StringValue "AWS" ∧
      s.AstroRuntimeVersion = TfString.value "9.1.0" ∧
      s.WorkerQueues = some [defaultQueue, extraQueue] :=
  have h := Read_overwrites_only_echoed_fields [] prod (remoteProd "dep-1" "HEALTHY") rfl
  match h.2.2 with
  | ⟨s, hs, hid, _, _, _, _, _, _, haws, hrt, _, _, _, _, _, _, _, _, _, _, hwq⟩ =>
    ⟨s, hs, hid, haws rfl, hrt, hwq⟩

/-! ## Create through an echoing remote -/

/-- C7 fails on the code: the remote echoes the create request of `prod` (cloud provider
`"aws"`) and reports `"HEALTHY"`, and the state `Create` writes has cloud provider
`"AWS"`, which is not the declared value. -/
theorem Create_echo_upper_cases_cloud_provider :
    ((remoteProd "dep-1" "HEALTHY").Name = (deploymentCreateRequest prod).Name ∧
      (remoteProd "dep-1" "HEALTHY").Type' = (deploymentCreateRequest prod).Type' ∧
      (remoteProd "dep-1" "HEALTHY").Region = (deploymentCreateRequest prod).Region ∧
      (remoteProd "dep-1" "HEALTHY").WorkspaceId =
        (deploymentCreateRequest prod).WorkspaceId ∧
      (remoteProd "dep-1" "HEALTHY").CloudProvider =
        (deploymentCreateRequest prod).CloudProvider ∧
      (remoteProd "dep-1" "HEALTHY").OrganizationId = prod.OrganizationId.ValueString ∧
      (remoteProd "dep-1" "HEALTHY").Status = "HEALTHY") ∧
    ∃ s, (Create [] prod (CallResult.ok (remoteProd "dep-1" "HEALTHY")) []).state = some s ∧
      s.CloudProvider = TfString.value "AWS" ∧
      s.CloudProvider ≠ prod.CloudProvider ∧
      s.CloudProvider.ValueString ≠ prod.CloudProvider.ValueString :=
  ⟨by decide, _, rfl, by decide, by decide, by decide⟩

/-- C7 as amended: `Create` round-trips the covered fields through an echoing remote,
up to the case of the cloud provider. When the plan decoded without error and the create
response echoes the create request (name, type, region, workspace id, cloud provider),
carries the organization id passed to the call and reports `"HEALTHY"`, the state
`Create` writes has name, type, region, workspace id and organization id each the known
string of the declared value, cloud provider the upper-cased declared value (the
declared value itself when that is already upper case), and the declared worker-queue
list. -/
theorem Create_round_trips_echoed_fields (diags : Diagnostics)
    (d : DeploymentResourceModel) (r : Deployment) (script : List CallResult)
    (hd : Diagnostics.HasError diags = false)
    (hname : r.Name = (deploymentCreateRequest d).Name)
    (htype : r.Type' = (deploymentCreateRequest d).Type')
    (hregion : r.Region = (deploymentCreateRequest d).Region)
    (hworkspace : r.WorkspaceId = (deploymentCreateRequest d).WorkspaceId)
    (hcloud : r.CloudProvider = (deploymentCreateRequest d).CloudProvider)
    (horg : r.OrganizationId = d.OrganizationId.ValueString)
    (hstatus : r.Status = "HEALTHY") :
    ∃ s, (Create diags d (CallResult.ok r) script).state = some s ∧
      s.Name = StringValue d.Name.ValueString ∧
      s.Type' = StringValue d.Type'.ValueString ∧
      s.Region = StringValue d.Region.ValueString ∧
      s.WorkspaceId = StringValue d.WorkspaceId.ValueString ∧
      s.OrganizationId = StringValue d.OrganizationId.ValueString ∧
      s.CloudProvider = StringValue (ToUpper d.CloudProvider.ValueString) ∧
      (ToUpper d.CloudProvider.ValueString = d.CloudProvider.ValueString →
        s.CloudProvider.ValueString = d.CloudProvider.ValueString) ∧
      s.WorkerQueues = d.WorkerQueues := by
  rw [CallResult.ok, Create_of_loop_healthy diags d (some r) script [] r hd
    (convergenceLoop_healthy _ _ _ hstatus)]
  refine ⟨_, rfl, ?_, ?_, ?_, ?_, ?_, ?_, ?_, rfl⟩
  · simp only [hname]; rfl
  · simp only [htype]; rfl
  · simp only [hregion]; rfl
  · simp only [hworkspace]; rfl
  · simp only [horg]
  · simp only [hcloud]; rfl
  · intro h
    simp only [hcloud]
    exact h

/-- C7 as amended, at `prod` and the remote resource echoing it. -/
theorem Create_round_trips_echoed_fields_witness :
    ∃ s, (Create [] prod (CallResult.ok (remoteProd "dep-1" "HEALTHY")) []).state = some s ∧
      s.Name = StringValue "prod" ∧
      s.Region = StringValue "us-east-1" ∧
      s.CloudProvider = StringValue "AWS" ∧
      s.WorkerQueues = some [defaultQueue, extraQueue] :=
  match Create_round_trips_echoed_fields [] prod (remoteProd "dep-1" "HEALTHY") [] rfl
    rfl rfl rfl rfl rfl rfl rfl with
  | ⟨s, hs, hname, _, hregion, _, _, hcloud, _, hwq⟩ => ⟨s, hs, hname, hregion, hcloud, hwq⟩

/-! ## Failure of the remote call -/

/-- C8: a failure of a verb's remote call is surfaced at once, with no retry and no
state write. If the remote call of `Create`, `Read`, `Update` or `Delete` returns an
error with text `e` (for `Create`, `Update` and `Delete` the call is made when the
plan or state decoded without error), the handler issues exactly that one call, returns,
writes no state, and its diagnostics have an error and hold the error diagnostic
`"Client Error"` whose detail ends with `e`; a failed `Create` makes no `GetDeployment`
call. -/
theorem remote_failure_is_surfaced (diags : Diagnostics) (data : DeploymentResourceModel)
    (e : String) :
    (Diagnostics.HasError diags = false →
      ∀ (resp : Option Deployment) (script : List CallResult),
      (Create diags data ⟨resp, some e⟩ script).calls =
        [RemoteCall.CreateDeployment data.OrganizationId.ValueString
          (deploymentCreateRequest data)] ∧
      getCount (Create diags data ⟨resp, some e⟩ script).calls = 0 ∧
      (Create diags data ⟨resp, some e⟩ script).state = none ∧
      (Create diags data ⟨resp, some e⟩ script).completion = Completion.returned ∧
      Diagnostics.HasError (Create diags data ⟨resp, some e⟩ script).diags = true ∧
      (⟨Severity.Error, "Client Error", "Unable to create example, got error: " ++ e⟩ :
        Diagnostic) ∈ (Create diags data ⟨resp, some e⟩ script).diags) ∧
    (∀ resp : Option Deployment,
      (Read diags data ⟨resp, some e⟩).calls =
        [RemoteCall.GetDeployment data.OrganizationId.ValueString data.Id.ValueString] ∧
      (Read diags data ⟨resp, some e⟩).state = none ∧
      (Read diags data ⟨resp, some e⟩).completion = Completion.returned ∧
      Diagnostics.HasError (Read diags data ⟨resp, some e⟩).diags = true ∧
      (⟨Severity.Error, "Client Error", "Unable to create example, got error: " ++ e⟩ :
        Diagnostic) ∈ (Read diags data ⟨resp, some e⟩).diags) ∧
    (Diagnostics.HasError diags = false →
      ∀ resp : Option Deployment,
      (Update diags data ⟨resp, some e⟩).calls =
        [RemoteCall.UpdateDeployment data.OrganizationId.ValueString data.Id.ValueString
          (deploymentUpdateRequest data)] ∧
      (Update diags data ⟨resp, some e⟩).state = none ∧
      (Update diags data ⟨resp, some e⟩).completion = Completion.returned ∧
      Diagnostics.HasError (Update diags data ⟨resp, some e⟩).diags = true ∧
      (⟨Severity.Error, "Client Error", "Unable to update example, got error: " ++ e⟩ :
        Diagnostic) ∈ (Update diags data ⟨resp, some e⟩).diags) ∧
    (Diagnostics.HasError diags = false →
      (Delete diags data (some e)).calls =
        [RemoteCall.DeleteDeployment data.OrganizationId.ValueString data.Id.ValueString] ∧
      (Delete diags data (some e)).state = none ∧
      (Delete diags data (some e)).completion = Completion.returned ∧
      Diagnostics.HasError (Delete diags data (some e)).diags = true ∧
      (⟨Severity.Error, "Client Error", "Unable to delete example, got error: " ++ e⟩ :
        Diagnostic) ∈ (Delete diags data (some e)).diags) := by
  refine ⟨?_, ?_, ?_, ?_⟩
  · intro hd resp script
    unfold Create
    simp only [hd]
    exact ⟨rfl, rfl, rfl, rfl, Diagnostics.HasError_AddError _ _ _,
      Diagnostics.mem_AddError _ _ _⟩
  · intro resp
    unfold Read
    exact ⟨rfl, rfl, rfl, Diagnostics.HasError_AddError _ _ _,
      Diagnostics.mem_AddError _ _ _⟩
  · intro hd resp
    unfold Update
    simp only [hd]
    exact ⟨rfl, rfl, rfl, Diagnostics.HasError_AddError _ _ _,
      Diagnostics.mem_AddError _ _ _⟩
  · intro hd
    unfold Delete
    simp only [hd]
    exact ⟨rfl, rfl, rfl, Diagnostics.HasError_AddError _ _ _,
      Diagnostics.mem_AddError _ _ _⟩

/-- C8 at `prod` and the remote error `"quota exceeded"`: the failed `Create` makes the
one create call and no fetch, and the failed `Delete` writes no state. -/
theorem remote_failure_is_surfaced_witness :
    (getCount (Create [] prod ⟨none, some "quota exceeded"⟩
        [CallResult.ok (remoteProd "dep-1" "HEALTHY")]).calls = 0 ∧
      (Create [] prod ⟨none, some "quota exceeded"⟩
        [CallResult.ok (remoteProd "dep-1" "HEALTHY")]).state = none) ∧
    (Delete [] prod (some "quota exceeded")).state = none :=
  have h := remote_failure_is_surfaced [] prod "quota exceeded"
  have hc := h.1 rfl none [CallResult.ok (remoteProd "dep-1" "HEALTHY")]
  have hdel := h.2.2.2 rfl
  ⟨⟨hc.2.1, hc.2.2.1⟩, hdel.2.1⟩

end Astronomer
